import Mathlib

/-!
Verification development for the `liquify-defi-tax` repository
(`src/backend-vercel/api/index.py` — raw `http.server` handler — and
`src/backend-vercel/api/main.py` — FastAPI handler).

Shallow embedding conventions:
* Every USD figure and token amount in the Python sources is a decimal
  literal that is an exact multiple of 0.01, so money and amounts are
  embedded as integer hundredths (cents): `12.30` becomes `1230`.
* Python's `.lower()` is `pyLower`, `sub in s` is `pyIn sub s`.
* Python's truthiness test `if protocol:` on an optional query parameter is
  false for both `None` and the empty string; `protocolStep`/`chainStep`
  reproduce that.
* Python's slice `l[:limit]` for an `int` limit (negative limits included)
  is `pySliceTo l limit`.
-/

/-- Python's `s.lower()` (ASCII, which covers every string this API handles). -/
def pyLower (s : String) : String := String.mk (s.toList.map Char.toLower)

/-- Python's substring containment test `sub in s`. -/
def pyIn (sub s : String) : Bool :=
  s.toList.tails.any (fun t => sub.toList.isPrefixOf t)

/-- The single-quote character as a string (used in the summary text). -/
def squote : String := String.singleton (Char.ofNat 39)

/-- A token amount sub-record (`symbol`, `amount`, `usd_value`), amounts in
hundredths. -/
structure TokenAmount where
  symbol : String
  amount : Int
  usd_value : Int
deriving DecidableEq

/-- A transaction record of the mock catalog (`MOCK_TRANSACTIONS` entries in
both `index.py` and `main.py`). Fields absent from a given record are `none`;
`gas_usd` is in cents. -/
structure Txn where
  id : String
  protocol : String
  type : String
  timestamp : String
  token_in : Option TokenAmount := none
  token_out : Option TokenAmount := none
  token : Option TokenAmount := none
  gas_usd : Option Int := none
  chain : String
deriving DecidableEq

/-- First catalog record (`index.py` lines 15–24, `main.py` lines 45–54). -/
def uniswapTxn : Txn :=
  { id := "0xabc123", protocol := "Uniswap V3", type := "SWAP",
    timestamp := "2024-03-15T10:23:00Z",
    token_in := some { symbol := "ETH", amount := 150, usd_value := 525000 },
    token_out := some { symbol := "USDC", amount := 524750, usd_value := 524750 },
    gas_usd := some 1230, chain := "ethereum" }

/-- Second catalog record (`index.py` lines 25–33, `main.py` lines 55–63). -/
def aaveTxn : Txn :=
  { id := "0xdef456", protocol := "Aave V3", type := "DEPOSIT",
    timestamp := "2024-06-20T14:05:00Z",
    token := some { symbol := "USDC", amount := 300000, usd_value := 300000 },
    gas_usd := some 850, chain := "ethereum" }

/-- Third catalog record (`index.py` lines 34–42, `main.py` lines 64–72). -/
def curveTxn : Txn :=
  { id := "0xghi789", protocol := "Curve", type := "ADD_LIQUIDITY",
    timestamp := "2024-09-10T09:45:00Z",
    token := some { symbol := "USDC", amount := 200000, usd_value := 200000 },
    gas_usd := some 1520, chain := "ethereum" }

/-- `MOCK_TRANSACTIONS` (identical constant in `index.py` and `main.py`). -/
def MOCK_TRANSACTIONS : List Txn := [uniswapTxn, aaveTxn, curveTxn]

/-- Python slice `l[:k]` for an arbitrary `int` bound `k`: a non-negative `k`
keeps the first `k` elements; a negative `k` removes the last `|k|`. -/
def pySliceTo {α : Type} (l : List α) (k : Int) : List α :=
  if 0 ≤ k then l.take k.toNat else l.take (l.length - (-k).toNat)

/-- The statement `if protocol: txns = [t for t in txns if protocol.lower() in
t["protocol"].lower()]` shared by `index.py` lines 106–107 and `main.py` lines
166–167 (`None` and the empty string are both falsy in Python). -/
def protocolStep (txns : List Txn) (protocol : Option String) : List Txn :=
  match protocol with
  | some p => if p == "" then txns else txns.filter (fun t => pyIn (pyLower p) (pyLower t.protocol))
  | none => txns

/-- The statement `if chain: txns = [t for t in txns if t["chain"] ==
chain.lower()]` shared by `index.py` lines 108–109 and `main.py` lines
168–169. Only the query argument is lower-cased; the record's chain field is
compared verbatim. -/
def chainStep (txns : List Txn) (chain : Option String) : List Txn :=
  match chain with
  | some c => if c == "" then txns else txns.filter (fun t => t.chain == pyLower c)
  | none => txns

/-- The Protocol Filter (spec section 4.2): the filtering pipeline of
`GET /api/transactions`, abstracted over the record list it starts from, with
the final `txns[:limit]` truncation. -/
def protocolFilter (records : List Txn) (protocol chain : Option String) (limit : Int) : List Txn :=
  pySliceTo (chainStep (protocolStep records protocol) chain) limit

/-- `GET /api/transactions` filtering in `main.py` `get_transactions`
(lines 165–173): starts from `MOCK_TRANSACTIONS`. -/
def get_transactions (protocol chain : Option String) (limit : Int) : List Txn :=
  pySliceTo (chainStep (protocolStep MOCK_TRANSACTIONS protocol) chain) limit

/-- `GET /api/transactions` filtering in `index.py` `handler.do_GET`
(lines 105–112): starts from `MOCK_TRANSACTIONS`. -/
def indexGET_transactions (protocol chain : Option String) (limit : Int) : List Txn :=
  pySliceTo (chainStep (protocolStep MOCK_TRANSACTIONS protocol) chain) limit

/-- The classify-and-filter step of `main.py` `nl_query` (lines 105–114). -/
def nl_query_filtered (query : String) : List Txn :=
  if pyIn "uniswap" (pyLower query) || pyIn "swap" (pyLower query) then
    MOCK_TRANSACTIONS.filter (fun t => t.protocol == "Uniswap V3")
  else if pyIn "aave" (pyLower query) || pyIn "deposit" (pyLower query) || pyIn "lend" (pyLower query) then
    MOCK_TRANSACTIONS.filter (fun t => t.protocol == "Aave V3")
  else if pyIn "curve" (pyLower query) || pyIn "liquidity" (pyLower query) then
    MOCK_TRANSACTIONS.filter (fun t => t.protocol == "Curve")
  else MOCK_TRANSACTIONS

/-- The classify-and-filter step of `index.py` `handler.do_POST` for
`/api/query` (lines 127–134). Its Aave branch tests only `"aave"` and
`"deposit"` — there is no `"lend"` keyword, unlike `main.py`. -/
def index_query_filtered (query : String) : List Txn :=
  if pyIn "uniswap" (pyLower query) || pyIn "swap" (pyLower query) then
    MOCK_TRANSACTIONS.filter (fun t => t.protocol == "Uniswap V3")
  else if pyIn "aave" (pyLower query) || pyIn "deposit" (pyLower query) then
    MOCK_TRANSACTIONS.filter (fun t => t.protocol == "Aave V3")
  else if pyIn "curve" (pyLower query) || pyIn "liquidity" (pyLower query) then
    MOCK_TRANSACTIONS.filter (fun t => t.protocol == "Curve")
  else MOCK_TRANSACTIONS

/-- The intent categories of the classifier (spec section 4.1). -/
inductive Category where
  | UNISWAP
  | AAVE
  | CURVE
  | NONE
deriving DecidableEq

/-- Modelled from the spec: the intent classifier contract of section 4.1 —
case-insensitive substring tests against the fixed keyword sets, in strict
order: Uniswap keywords, then Aave keywords (including `"lend"`), then Curve
keywords, else `NONE`. -/
def classify (query : String) : Category :=
  if pyIn "uniswap" (pyLower query) || pyIn "swap" (pyLower query) then Category.UNISWAP
  else if pyIn "aave" (pyLower query) || pyIn "deposit" (pyLower query) || pyIn "lend" (pyLower query) then Category.AAVE
  else if pyIn "curve" (pyLower query) || pyIn "liquidity" (pyLower query) then Category.CURVE
  else Category.NONE

/-- The classifier actually implemented by `index.py` `handler.do_POST`
(branch conditions of lines 129–133): its Aave keyword set is
`{"aave", "deposit"}`, without `"lend"`. -/
def classifyIndex (query : String) : Category :=
  if pyIn "uniswap" (pyLower query) || pyIn "swap" (pyLower query) then Category.UNISWAP
  else if pyIn "aave" (pyLower query) || pyIn "deposit" (pyLower query) then Category.AAVE
  else if pyIn "curve" (pyLower query) || pyIn "liquidity" (pyLower query) then Category.CURVE
  else Category.NONE

/-- The protocol filter each category selects (the list comprehensions of
`index.py` lines 130/132/134 and `main.py` lines 110/112/114). -/
def applyCategory : Category → List Txn
  | Category.UNISWAP => MOCK_TRANSACTIONS.filter (fun t => t.protocol == "Uniswap V3")
  | Category.AAVE => MOCK_TRANSACTIONS.filter (fun t => t.protocol == "Aave V3")
  | Category.CURVE => MOCK_TRANSACTIONS.filter (fun t => t.protocol == "Curve")
  | Category.NONE => MOCK_TRANSACTIONS

/-- Python's `f"{total:.2f}"` on a money value held in cents (every money
value in this program is an exact multiple of 0.01, so the float formatting
of the source is exact here). -/
def format_2f (cents : Int) : String :=
  (if cents < 0 then "-" else "")
    ++ toString (cents.natAbs / 100) ++ "."
    ++ (if cents.natAbs % 100 < 10 then "0" else "")
    ++ toString (cents.natAbs % 100)

/-- `list({t["protocol"] for t in transactions})` (`main.py` line 216,
`index.py` line 136). Python's set iteration order is unspecified; the
embedding fixes first-occurrence order. -/
def distinct_protocols (transactions : List Txn) : List String :=
  (transactions.map (fun t => t.protocol)).eraseDups

/-- `sum(t.get("gas_usd", 0) for t in transactions)` (`main.py` line 217,
`index.py` line 137), in cents. -/
def total_gas (transactions : List Txn) : Int :=
  (transactions.map (fun t => t.gas_usd.getD 0)).sum

/-- The rule-based fallback of `main.py` `_generate_summary` (lines 213–221);
`index.py` lines 136–141 compute the identical text inline. The external
AI branch (lines 196–211) is an external collaborator outside this model. -/
def generate_summary (query : String) (transactions : List Txn) : String :=
  if transactions.isEmpty then
    "No transactions found matching " ++ squote ++ query ++ squote ++ "."
  else
    "Found " ++ toString transactions.length ++ " transaction(s) across "
      ++ String.intercalate ", " (distinct_protocols transactions)
      ++ ". Total gas fees: $" ++ format_2f (total_gas transactions) ++ "."

/-- A JSON POST body, restricted to the fields the two POST endpoints read;
a missing field is `none`. -/
structure PostBody where
  query : Option String := none
  wallet_address : Option String := none
  tax_year : Option Int := none
  cost_basis_method : Option String := none
deriving DecidableEq

/-- The response body of `POST /api/query` (both variants produce these
fields; the `data_source` note differs between the two files). -/
structure QueryResponse where
  query : String
  wallet_address : Option String
  transactions_found : Nat
  transactions : List Txn
  ai_summary : String
  data_source : String
deriving DecidableEq

/-- One part of the form-8949 summary (`proceeds`, `cost_basis`,
`gain_loss`), in cents. -/
structure FormPart where
  proceeds : Int
  cost_basis : Int
  gain_loss : Int
deriving DecidableEq

/-- The nested `form_8949_summary` value (identical literal in
`index.py` lines 168–171 and `main.py` lines 140–151). -/
structure Form8949Summary where
  part_i_short_term : FormPart
  part_ii_long_term : FormPart
deriving DecidableEq

/-- `MOCK_TAX_SUMMARY` (`main.py` lines 75–86), money in cents. -/
structure TaxSummaryConsts where
  tax_year : Int
  cost_basis_method : String
  short_term_gains : Int
  long_term_gains : Int
  total_gains : Int
  total_gas_fees_usd : Int
  deductible_gas_fees : Int
  taxable_events : Nat
  income_events : Nat
  data_source : String
deriving DecidableEq

/-- The `MOCK_TAX_SUMMARY` constant of `main.py` lines 75–86. -/
def MOCK_TAX_SUMMARY : TaxSummaryConsts :=
  { tax_year := 2024, cost_basis_method := "FIFO",
    short_term_gains := 124750, long_term_gains := 382000,
    total_gains := 506750, total_gas_fees_usd := 3600,
    deductible_gas_fees := 3600, taxable_events := 3, income_events := 0,
    data_source := "mock — set LIQUIFY_API_KEY for live Liquify Indexer data" }

/-- The tax report built by `main.py` `tax_report` (lines 130–153): the
`MOCK_TAX_SUMMARY` constants merged with the request fields and a fresh
timestamp. -/
structure MainTaxReport where
  tax_year : Int
  cost_basis_method : String
  short_term_gains : Int
  long_term_gains : Int
  total_gains : Int
  total_gas_fees_usd : Int
  deductible_gas_fees : Int
  taxable_events : Nat
  income_events : Nat
  data_source : String
  wallet_address : String
  generated_at : String
  transactions : List Txn
  form_8949_summary : Form8949Summary
deriving DecidableEq

/-- `main.py` `tax_report` (lines 130–153): `{**MOCK_TAX_SUMMARY, ...}` with
the request's wallet address, tax year and cost-basis method, the generation
timestamp `now`, the full catalog, and the literal form-8949 summary. -/
def tax_report (wallet_address : String) (tax_year : Int) (cost_basis_method : String)
    (now : String) : MainTaxReport :=
  { tax_year := tax_year, cost_basis_method := cost_basis_method,
    short_term_gains := MOCK_TAX_SUMMARY.short_term_gains,
    long_term_gains := MOCK_TAX_SUMMARY.long_term_gains,
    total_gains := MOCK_TAX_SUMMARY.total_gains,
    total_gas_fees_usd := MOCK_TAX_SUMMARY.total_gas_fees_usd,
    deductible_gas_fees := MOCK_TAX_SUMMARY.deductible_gas_fees,
    taxable_events := MOCK_TAX_SUMMARY.taxable_events,
    income_events := MOCK_TAX_SUMMARY.income_events,
    data_source := MOCK_TAX_SUMMARY.data_source,
    wallet_address := wallet_address, generated_at := now,
    transactions := MOCK_TRANSACTIONS,
    form_8949_summary :=
      { part_i_short_term := { proceeds := 524750, cost_basis := 400000, gain_loss := 124750 },
        part_ii_long_term := { proceeds := 820000, cost_basis := 438000, gain_loss := 382000 } } }

/-- The tax report built inline by `index.py` `handler.do_POST` for
`/api/tax-report` (lines 156–173), money in cents. -/
structure IndexTaxReport where
  wallet_address : String
  tax_year : Int
  cost_basis_method : String
  generated_at : String
  short_term_gains : Int
  long_term_gains : Int
  total_gains : Int
  total_gas_fees_usd : Int
  deductible_gas_fees : Int
  taxable_events : Nat
  transactions : List Txn
  form_8949_summary : Form8949Summary
  data_source : String
deriving DecidableEq

/-- `index.py` `handler.do_POST`, `/api/tax-report` branch (lines 152–173):
missing body fields default (`"unknown"`, `2024`, `"FIFO"`); the response is
sent with `_json_response`'s default status 200. -/
def index_api_tax_report (body : PostBody) (now : String) : Nat × IndexTaxReport :=
  (200,
    { wallet_address := body.wallet_address.getD "unknown",
      tax_year := body.tax_year.getD 2024,
      cost_basis_method := body.cost_basis_method.getD "FIFO",
      generated_at := now,
      short_term_gains := 124750, long_term_gains := 382000,
      total_gains := 506750, total_gas_fees_usd := 3600,
      deductible_gas_fees := 3600, taxable_events := 3,
      transactions := MOCK_TRANSACTIONS,
      form_8949_summary :=
        { part_i_short_term := { proceeds := 524750, cost_basis := 400000, gain_loss := 124750 },
          part_ii_long_term := { proceeds := 820000, cost_basis := 438000, gain_loss := 382000 } },
      data_source := "mock — set LIQUIFY_API_KEY for live data" })

/-- `index.py` `handler.do_POST`, `/api/query` branch (lines 124–150): a
missing `query` defaults to `""` via `body.get("query", "")`; the response
is sent with `_json_response`'s default status 200. -/
def index_api_query (body : PostBody) : Nat × QueryResponse :=
  (200,
    { query := body.query.getD "",
      wallet_address := body.wallet_address,
      transactions_found := (index_query_filtered (body.query.getD "")).length,
      transactions := index_query_filtered (body.query.getD ""),
      ai_summary := generate_summary (body.query.getD "") (index_query_filtered (body.query.getD "")),
      data_source := "mock — set LIQUIFY_API_KEY for live data" })

/-- Modelled from the spec: the FastAPI variant's `POST /api/query`.
`NLQueryRequest` (`main.py` lines 31–35) marks `query` required, and the
framework-level validation of spec section 7(b) — pydantic, an external
collaborator not in `src/` — rejects a body missing a required field with a
4xx (422) validation error before `nl_query` (lines 102–126) runs. -/
def main_api_query (body : PostBody) : Nat × Option QueryResponse :=
  match body.query with
  | none => (422, none)
  | some q =>
    (200, some
      { query := q,
        wallet_address := body.wallet_address,
        transactions_found := (nl_query_filtered q).length,
        transactions := nl_query_filtered q,
        ai_summary := generate_summary q (nl_query_filtered q),
        data_source := "mock — set LIQUIFY_API_KEY for live Liquify Indexer data" })

/-- Modelled from the spec: the FastAPI variant's `POST /api/tax-report`.
`TaxReportRequest` (`main.py` lines 37–40) marks `wallet_address` required,
and the framework-level validation of spec section 7(b) rejects a body
missing it with a 4xx (422) validation error before `tax_report` runs. -/
def main_api_tax_report (body : PostBody) (now : String) : Nat × Option MainTaxReport :=
  match body.wallet_address with
  | none => (422, none)
  | some w =>
    (200, some (tax_report w (body.tax_year.getD 2024) (body.cost_basis_method.getD "FIFO") now))

/-- The predicate of the `if protocol:` comprehension, as a function of one
record (true when the protocol filter is absent or falsy). -/
def keepProtocol (protocol : Option String) (t : Txn) : Bool :=
  match protocol with
  | some p => if p == "" then true else pyIn (pyLower p) (pyLower t.protocol)
  | none => true

/-- The predicate of the `if chain:` comprehension, as a function of one
record (true when the chain filter is absent or falsy). -/
def keepChain (chain : Option String) (t : Txn) : Bool :=
  match chain with
  | some c => if c == "" then true else t.chain == pyLower c
  | none => true

theorem protocolStep_eq_filter (txns : List Txn) (p : Option String) :
    protocolStep txns p = txns.filter (keepProtocol p) := by
  cases p with
  | none => exact (List.filter_eq_self.mpr (fun a _ => rfl)).symm
  | some s =>
    cases hs : (s == "") with
    | true =>
      simp only [protocolStep, hs, if_true]
      exact (List.filter_eq_self.mpr (fun a _ => by simp [keepProtocol, hs])).symm
    | false =>
      simp only [protocolStep, hs, Bool.false_eq_true, if_false]
      exact List.filter_congr (fun a _ => by simp [keepProtocol, hs])

theorem chainStep_eq_filter (txns : List Txn) (c : Option String) :
    chainStep txns c = txns.filter (keepChain c) := by
  cases c with
  | none => exact (List.filter_eq_self.mpr (fun a _ => rfl)).symm
  | some s =>
    cases hs : (s == "") with
    | true =>
      simp only [chainStep, hs, if_true]
      exact (List.filter_eq_self.mpr (fun a _ => by simp [keepChain, hs])).symm
    | false =>
      simp only [chainStep, hs, Bool.false_eq_true, if_false]
      exact List.filter_congr (fun a _ => by simp [keepChain, hs])

theorem pySliceTo_subset {α : Type} (l : List α) (k : Int) : pySliceTo l k ⊆ l := by
  unfold pySliceTo
  split <;> exact List.take_subset _ _

theorem mem_protocolFilter_keep {recs : List Txn} {p c : Option String} {L : Int} {t : Txn}
    (h : t ∈ protocolFilter recs p c L) :
    keepProtocol p t = true ∧ keepChain c t = true := by
  have h1 : t ∈ chainStep (protocolStep recs p) c := pySliceTo_subset _ _ h
  rw [chainStep_eq_filter] at h1
  have h2 := List.mem_filter.mp h1
  rw [protocolStep_eq_filter] at h2
  exact ⟨(List.mem_filter.mp h2.1).2, h2.2⟩

theorem protocolFilter_length_le {recs : List Txn} {p c : Option String} {L : Int}
    (hL : 0 ≤ L) : (protocolFilter recs p c L).length ≤ L.toNat := by
  unfold protocolFilter pySliceTo
  rw [if_pos hL]
  simp [List.length_take]


/-- C8: the protocol filter invoked with `limit = 0` returns the empty
sequence, for every record list and every protocol/chain argument. -/
theorem protocolFilter_limit_zero (records : List Txn) (protocol chain : Option String) :
    protocolFilter records protocol chain 0 = [] := by
  simp [protocolFilter, pySliceTo]

/-- C9: the hardcoded tax-report constants are mutually consistent (in exact
cents arithmetic): total gains split, gas-fee total versus the catalog,
taxable-event count versus the catalog size, and per-part form-8949
`gain_loss = proceeds - cost_basis`. -/
theorem mock_tax_constants_consistent :
    MOCK_TAX_SUMMARY.total_gains
        = MOCK_TAX_SUMMARY.short_term_gains + MOCK_TAX_SUMMARY.long_term_gains
    ∧ MOCK_TAX_SUMMARY.total_gas_fees_usd = total_gas MOCK_TRANSACTIONS
    ∧ MOCK_TAX_SUMMARY.taxable_events = MOCK_TRANSACTIONS.length
    ∧ (tax_report "0xwallet" 2024 "FIFO" "now").form_8949_summary.part_i_short_term.gain_loss
        = (tax_report "0xwallet" 2024 "FIFO" "now").form_8949_summary.part_i_short_term.proceeds
          - (tax_report "0xwallet" 2024 "FIFO" "now").form_8949_summary.part_i_short_term.cost_basis
    ∧ (tax_report "0xwallet" 2024 "FIFO" "now").form_8949_summary.part_ii_long_term.gain_loss
        = (tax_report "0xwallet" 2024 "FIFO" "now").form_8949_summary.part_ii_long_term.proceeds
          - (tax_report "0xwallet" 2024 "FIFO" "now").form_8949_summary.part_ii_long_term.cost_basis := by
  decide

/-- C6: the cost-basis method is echoed but never applied — in both handler
variants, reports built for two methods (same wallet, year and timestamp)
agree on every field except `cost_basis_method`. -/
theorem cost_basis_method_unused (w : String) (y : Int) (m1 m2 : String) (ts : String) :
    tax_report w y m1 ts = { tax_report w y m2 ts with cost_basis_method := m1 }
    ∧ (index_api_tax_report { wallet_address := some w, tax_year := some y, cost_basis_method := some m1 } ts).2
        = { (index_api_tax_report { wallet_address := some w, tax_year := some y, cost_basis_method := some m2 } ts).2
              with cost_basis_method := m1 } := by
  constructor <;> rfl

/-- C7 counterexample: with the negative limit `-1` (accepted by the code via
Python slice semantics), re-filtering the already-filtered catalog with the
same arguments drops one more record, so the filter is not idempotent for
every limit. -/
theorem protocolFilter_not_idempotent_neg_limit :
    protocolFilter (protocolFilter MOCK_TRANSACTIONS none none (-1)) none none (-1)
      ≠ protocolFilter MOCK_TRANSACTIONS none none (-1) := by
  decide

/-- C7 amended: the protocol filter is idempotent for every record list,
every optional protocol substring and chain value, and every non-negative
limit (negative limits, which Python's slice also accepts, are excluded). -/
theorem protocolFilter_idempotent (recs : List Txn) (p c : Option String) (L : Int)
    (hL : 0 ≤ L) :
    protocolFilter (protocolFilter recs p c L) p c L = protocolFilter recs p c L := by
  have hps : protocolStep (protocolFilter recs p c L) p = protocolFilter recs p c L := by
    rw [protocolStep_eq_filter]
    exact List.filter_eq_self.mpr (fun t ht => (mem_protocolFilter_keep ht).1)
  have hcs : chainStep (protocolFilter recs p c L) c = protocolFilter recs p c L := by
    rw [chainStep_eq_filter]
    exact List.filter_eq_self.mpr (fun t ht => (mem_protocolFilter_keep ht).2)
  calc protocolFilter (protocolFilter recs p c L) p c L
      = pySliceTo (protocolFilter recs p c L) L := by
        rw [protocolFilter, hps, hcs]
    _ = (protocolFilter recs p c L).take L.toNat := by rw [pySliceTo, if_pos hL]
    _ = protocolFilter recs p c L := List.take_of_length_le (protocolFilter_length_le hL)

/-- C7 witness: idempotence at a concrete call — the catalog filtered by
protocol substring `"uni"` on chain `"ethereum"` with the default limit 50. -/
theorem protocolFilter_idempotent_witness :
    protocolFilter (protocolFilter MOCK_TRANSACTIONS (some "uni") (some "ethereum") 50)
        (some "uni") (some "ethereum") 50
      = protocolFilter MOCK_TRANSACTIONS (some "uni") (some "ethereum") 50 :=
  protocolFilter_idempotent MOCK_TRANSACTIONS (some "uni") (some "ethereum") 50 (by decide)

/-- C10 counterexample: at limit `-3` the filtered catalog (3 records) loses
its last 3 records, so the endpoint does return an empty list for some
negative limit, contrary to the claim's "does not return an empty list". -/
theorem negative_limit_can_return_empty :
    protocolFilter MOCK_TRANSACTIONS none none (-3) = [] := by
  decide

/-- C10 amended: for every negative limit `L`, the filter returns the
filtered list with its last `min(|L|, length)` records removed (Python
negative-slice semantics) — empty whenever `|L|` reaches the filtered
length; in particular limit `-1` on the unfiltered catalog returns the
first two of the three records. -/
theorem protocolFilter_negative_limit (recs : List Txn) (p c : Option String) (L : Int)
    (hL : L < 0) :
    protocolFilter recs p c L
      = (chainStep (protocolStep recs p) c).take
          ((chainStep (protocolStep recs p) c).length - (-L).toNat)
    ∧ protocolFilter MOCK_TRANSACTIONS none none (-1) = [uniswapTxn, aaveTxn] := by
  constructor
  · rw [protocolFilter, pySliceTo, if_neg (by omega)]
  · decide

/-- C10 witness: the amended statement evaluated at limit `-1` on the
unfiltered catalog. -/
theorem protocolFilter_negative_limit_witness :
    protocolFilter MOCK_TRANSACTIONS none none (-1)
      = (chainStep (protocolStep MOCK_TRANSACTIONS none) none).take
          ((chainStep (protocolStep MOCK_TRANSACTIONS none) none).length - 1) :=
  (protocolFilter_negative_limit MOCK_TRANSACTIONS none none (-1) (by decide)).1

/-- C4 counterexample: a record whose stored chain field contains upper-case
letters (`"Polygon"`) is not matched by the chain argument `"POLYGON"`,
although the two sides are equal after lower-casing both — the code
lower-cases only the argument. -/
def polygonTxn : Txn :=
  { id := "0xpoly01", protocol := "Uniswap V3", type := "SWAP",
    timestamp := "2024-01-01T00:00:00Z", gas_usd := some 100, chain := "Polygon" }

theorem chain_filter_not_lowercase_both :
    pyLower polygonTxn.chain = pyLower "POLYGON"
    ∧ polygonTxn ∉ chainStep [polygonTxn] (some "POLYGON") := by
  decide

/-- C4 amended: with `chainExact` present (and non-empty, hence truthy), a
record is retained iff its chain field, taken verbatim, equals the argument
after lower-casing the argument only; records stored in lower-case are thus
matched by any casing of the argument, but a record stored with upper-case
letters is never matched. -/
theorem chainStep_mem_iff (recs : List Txn) (c : String) (t : Txn) (hc : c ≠ "") :
    t ∈ chainStep recs (some c) ↔ t ∈ recs ∧ t.chain = pyLower c := by
  rw [chainStep_eq_filter, List.mem_filter, keepChain]
  have hc' : (c == "") = false := by simpa using hc
  simp [hc']

/-- C4 witness: the first catalog record (chain stored as `"ethereum"`) is
retained by the chain argument `"ETHEREUM"`. -/
theorem chainStep_mem_iff_witness :
    uniswapTxn ∈ chainStep MOCK_TRANSACTIONS (some "ETHEREUM") :=
  (chainStep_mem_iff MOCK_TRANSACTIONS "ETHEREUM" uniswapTxn (by decide)).mpr
    ⟨by decide, by decide⟩

/-- C5: the rule-based summary — exact no-match text for every query on an
empty record list; the count/protocols/gas-total shape for every non-empty
record list (gas defaulting to 0 when missing); and the exact text for the
single Uniswap mock record, with total gas $12.30. -/
theorem generate_summary_spec :
    (∀ q : String,
        generate_summary q [] = "No transactions found matching " ++ squote ++ q ++ squote ++ ".")
    ∧ (∀ (q : String) (ts : List Txn), ts ≠ [] →
        generate_summary q ts
          = "Found " ++ toString ts.length ++ " transaction(s) across "
              ++ String.intercalate ", " (distinct_protocols ts)
              ++ ". Total gas fees: $" ++ format_2f (total_gas ts) ++ ".")
    ∧ generate_summary "show swaps" [uniswapTxn]
        = "Found 1 transaction(s) across Uniswap V3. Total gas fees: $12.30." := by
  refine ⟨fun q => rfl, ?_, by decide⟩
  intro q ts h
  simp [generate_summary, h]

/-- C5 witness: the non-empty branch evaluated on the single Aave record. -/
theorem generate_summary_spec_witness :
    generate_summary "q" [aaveTxn]
      = "Found " ++ toString ([aaveTxn].length) ++ " transaction(s) across "
          ++ String.intercalate ", " (distinct_protocols [aaveTxn])
          ++ ". Total gas fees: $" ++ format_2f (total_gas [aaveTxn]) ++ "." :=
  generate_summary_spec.2.1 "q" [aaveTxn] (by decide)

/-- C1 counterexample: the claimed keyword algorithm (Aave keywords
`{"aave","deposit","lend"}`) classifies `"lend"` as AAVE, so only Aave V3
records should be returned; but the `index.py` handler returns the full
catalog for that query, which is not the Aave-filtered list. -/
theorem query_intent_claim_counterexample :
    classify "lend" = Category.AAVE
    ∧ index_query_filtered "lend" = MOCK_TRANSACTIONS
    ∧ MOCK_TRANSACTIONS ≠ MOCK_TRANSACTIONS.filter (fun t => t.protocol == "Aave V3") := by
  decide

/-- C1 amended: the FastAPI handler's classification implements exactly the
claimed keyword sets in strict first-match order; the raw `index.py` handler
implements the same order but with Aave keywords `{"aave","deposit"}` (no
`"lend"`). In both, every query containing `"swap"` or `"uniswap"` (any
case) yields only records with protocol `"Uniswap V3"`, and a query matching
no keyword set yields the full catalog unfiltered. -/
theorem query_intent_amended :
    (∀ q : String, nl_query_filtered q = applyCategory (classify q))
    ∧ (∀ q : String, index_query_filtered q = applyCategory (classifyIndex q))
    ∧ (∀ q : String, (pyIn "uniswap" (pyLower q) || pyIn "swap" (pyLower q)) = true →
        (∀ t ∈ nl_query_filtered q, t.protocol = "Uniswap V3")
        ∧ (∀ t ∈ index_query_filtered q, t.protocol = "Uniswap V3"))
    ∧ (∀ q : String, classify q = Category.NONE →
        nl_query_filtered q = MOCK_TRANSACTIONS
        ∧ index_query_filtered q = MOCK_TRANSACTIONS) := by
  refine ⟨?_, ?_, ?_, ?_⟩
  · intro q
    cases h1 : (pyIn "uniswap" (pyLower q) || pyIn "swap" (pyLower q)) <;>
    cases h2 : (pyIn "aave" (pyLower q) || pyIn "deposit" (pyLower q) || pyIn "lend" (pyLower q)) <;>
    cases h3 : (pyIn "curve" (pyLower q) || pyIn "liquidity" (pyLower q)) <;>
      simp [nl_query_filtered, classify, applyCategory, h1, h2, h3]
  · intro q
    cases h1 : (pyIn "uniswap" (pyLower q) || pyIn "swap" (pyLower q)) <;>
    cases h2 : (pyIn "aave" (pyLower q) || pyIn "deposit" (pyLower q)) <;>
    cases h3 : (pyIn "curve" (pyLower q) || pyIn "liquidity" (pyLower q)) <;>
      simp [index_query_filtered, classifyIndex, applyCategory, h1, h2, h3]
  · intro q h
    constructor
    · intro t ht
      simp only [nl_query_filtered, h, if_true] at ht
      simpa using (List.mem_filter.mp ht).2
    · intro t ht
      simp only [index_query_filtered, h, if_true] at ht
      simpa using (List.mem_filter.mp ht).2
  · intro q h
    have h1 : (pyIn "uniswap" (pyLower q) || pyIn "swap" (pyLower q)) = false := by
      cases hh : (pyIn "uniswap" (pyLower q) || pyIn "swap" (pyLower q)) with
      | true => simp [classify, hh] at h
      | false => rfl
    have h2 : (pyIn "aave" (pyLower q) || pyIn "deposit" (pyLower q) || pyIn "lend" (pyLower q)) = false := by
      cases hh : (pyIn "aave" (pyLower q) || pyIn "deposit" (pyLower q) || pyIn "lend" (pyLower q)) with
      | true => simp [classify, h1, hh] at h
      | false => rfl
    have h3 : (pyIn "curve" (pyLower q) || pyIn "liquidity" (pyLower q)) = false := by
      cases hh : (pyIn "curve" (pyLower q) || pyIn "liquidity" (pyLower q)) with
      | true => simp [classify, h1, h2, hh] at h
      | false => rfl
    have h2' : (pyIn "aave" (pyLower q) || pyIn "deposit" (pyLower q)) = false :=
      (Bool.or_eq_false_iff.mp h2).1
    constructor
    · simp [nl_query_filtered, h1, h2, h3]
    · simp [index_query_filtered, h1, h2', h3]

/-- C1 witness: for the query `"Show my SWAP history"` the hypotheses of the
Uniswap consequence hold and the first catalog record is among the results
with protocol `"Uniswap V3"`. -/
theorem query_intent_amended_witness :
    uniswapTxn.protocol = "Uniswap V3" :=
  (query_intent_amended.2.2.1 "Show my SWAP history" (by decide)).1 uniswapTxn (by decide)

/-- C2 counterexample: on the query `"lend"` the two POST handlers return
different lists — `index.py` the full catalog, `main.py` only the Aave
record — so the two variants are not identical. -/
theorem handlers_not_identical_on_lend :
    index_query_filtered "lend" ≠ nl_query_filtered "lend" := by
  decide

/-- C2 amended: the `GET /api/transactions` filtering really is identical in
the two variants for every (protocol, chain, limit) triple; the
classify-and-filter steps of `POST /api/query` agree on every query whose
lower-casing does not contain `"lend"` (the one keyword `index.py` omits). -/
theorem handlers_equivalence_amended :
    (∀ (p c : Option String) (L : Int), indexGET_transactions p c L = get_transactions p c L)
    ∧ (∀ q : String, pyIn "lend" (pyLower q) = false →
        index_query_filtered q = nl_query_filtered q) := by
  constructor
  · intro p c L
    rfl
  · intro q h
    simp [index_query_filtered, nl_query_filtered, h]

/-- C2 witness: the two classify-and-filter steps agree on the query
`"uniswap trades"`, which contains no `"lend"`. -/
theorem handlers_equivalence_witness :
    index_query_filtered "uniswap trades" = nl_query_filtered "uniswap trades" :=
  handlers_equivalence_amended.2 "uniswap trades" (by decide)

/-- C3 counterexample: the raw `index.py` handler answers a body with every
field missing with status 200 (success) on both POST endpoints, substituting
defaults instead of rejecting with a 4xx validation error. -/
theorem missing_fields_accepted_by_index :
    (index_api_query {}).1 = 200 ∧ (index_api_tax_report {} "t0").1 = 200 := by
  decide

/-- C3 amended: only the FastAPI variant rejects a body missing its required
field with a 4xx validation error (422, framework-level validation); the raw
`index.py` variant always responds 200, defaulting `query` to `""` and
`wallet_address` to `"unknown"`. -/
theorem missing_required_field_amended :
    (∀ body : PostBody, body.query = none → (main_api_query body).1 = 422)
    ∧ (∀ (body : PostBody) (now : String), body.wallet_address = none →
        (main_api_tax_report body now).1 = 422)
    ∧ (∀ body : PostBody, (index_api_query body).1 = 200)
    ∧ (∀ (body : PostBody) (now : String), (index_api_tax_report body now).1 = 200) := by
  refine ⟨?_, ?_, fun body => rfl, fun body now => rfl⟩
  · intro body h
    simp [main_api_query, h]
  · intro body now h
    simp [main_api_tax_report, h]

/-- C3 witness: the FastAPI query endpoint on an empty body answers 422. -/
theorem missing_required_field_witness :
    (main_api_query {}).1 = 422 :=
  missing_required_field_amended.1 {} rfl
